import Mathlib

/-!
Verification of the vehicle-telemetry pipeline of `genaivehiclediagnostics`.

The development shallowly embeds the Python backend in Lean:

* Python `float` values are modelled as exact rationals (`ℚ`); `round(x, n)`
  is modelled by round-half-even at `n` decimal digits (`pyround`) and `int(x)`
  by truncation toward zero (`pytrunc`).
* ISO-8601 timestamp strings are modelled by their epoch-second value (a `ℚ`):
  `datetime.isoformat` / `datetime.fromisoformat` translate between the two
  representations bijectively, so nothing is lost by working with the numbers.
* `uuid.uuid4()` alert ids and the exact decimal rendering used in f-string
  messages play no role in any verified property; ids are modelled as `""` and
  one-decimal float formatting by `pyFmt1`.
* The module `backend/models/telemetry.py` (plain pydantic value classes) is
  not part of the source tree; its record types are modelled from the spec's
  data-model section and from how every other module constructs and reads them.

Sources embedded: `backend/services/data_store.py`,
`backend/analytics/health_analyzer.py`, `backend/analytics/predictive_engine.py`,
`backend/simulator/vehicle_simulator.py`, `backend/api/external_sim_routes.py`.
-/

/-- Python slice `lst[-n:]` for a nonnegative `n`: the whole list when
`n = 0` (because `-0 == 0`), otherwise the last `min n (length)` elements. -/
def pySliceLast (n : ℕ) (l : List α) : List α :=
  if n = 0 then l else l.rtake n

/-- Round a rational to the nearest integer, ties to even — the rounding mode
of Python's builtin `round`. -/
def rhe (q : ℚ) : ℤ :=
  if q - ⌊q⌋ < 1/2 then ⌊q⌋
  else if 1/2 < q - ⌊q⌋ then ⌊q⌋ + 1
  else if ⌊q⌋ % 2 = 0 then ⌊q⌋ else ⌊q⌋ + 1

/-- Python `round(q, nd)` for `nd` decimal digits (idealised to exact
rationals). -/
def pyround (nd : ℕ) (q : ℚ) : ℚ := (rhe (q * 10 ^ nd) : ℚ) / 10 ^ nd

/-- Python `int(q)`: truncation toward zero. -/
def pytrunc (q : ℚ) : ℤ := if 0 ≤ q then ⌊q⌋ else -⌊-q⌋

/-- Transcription of `sum(f(i, y) for i, y in enumerate(values))`, starting the
index at `i0`. -/
def sumIdx (f : ℕ → ℚ → ℚ) : ℕ → List ℚ → ℚ
  | _, [] => 0
  | i, y :: ys => f i y + sumIdx f (i + 1) ys

/-- Python `max(lst)` on a list of numbers (`0` on the empty list, which the
sources never reach). -/
def pyListMax : List ℚ → ℚ
  | [] => 0
  | x :: xs => xs.foldl max x

/-- Python `str.upper()` on the ASCII strings used for vehicle variants. -/
def pyUpper (s : String) : String := ⟨s.data.map Char.toUpper⟩

/-- Abstraction of the one-decimal f-string rendering `f"{q:.1f}"` used in
alert messages; no verified property inspects message texts. -/
def pyFmt1 (q : ℚ) : String := toString (pyround 1 q)

/-- Round-half-even never moves a value by more than one half. -/
theorem rhe_sandwich (q : ℚ) : q - 1/2 ≤ (rhe q : ℚ) ∧ (rhe q : ℚ) ≤ q + 1/2 := by
  unfold rhe
  have h1 : (⌊q⌋ : ℚ) ≤ q := Int.floor_le q
  have h2 : q < (⌊q⌋ : ℚ) + 1 := Int.lt_floor_add_one q
  split
  · constructor <;> push_cast <;> linarith
  · split
    · constructor <;> push_cast <;> linarith
    · split <;> constructor <;> push_cast <;> linarith


/-- Rounding to one decimal preserves strict order across a gap wider than one
tenth. -/
theorem pyround_one_strict {p c : ℚ} (h : p + 1/10 < c) : pyround 1 p < pyround 1 c := by
  have hp := rhe_sandwich (p * 10 ^ 1)
  have hc := rhe_sandwich (c * 10 ^ 1)
  have hpow : ((10 : ℚ) ^ (1 : ℕ)) = 10 := by norm_num
  rw [hpow] at hp hc
  have hmid : p * 10 + 1/2 < c * 10 - 1/2 := by linarith
  have hlt : (rhe (p * 10 ^ 1) : ℚ) < (rhe (c * 10 ^ 1) : ℚ) := by
    rw [hpow]
    exact lt_of_le_of_lt hp.2 (lt_of_lt_of_le hmid hc.1)
  unfold pyround
  exact div_lt_div_of_pos_right hlt (by norm_num)

/-- Rounding to one decimal maps the driving-score range `[0, 100]` into
itself. -/
theorem pyround_mem_Icc {q : ℚ} (h0 : 0 ≤ q) (h100 : q ≤ 100) :
    0 ≤ pyround 1 q ∧ pyround 1 q ≤ 100 := by
  unfold pyround
  have hpow : ((10 : ℚ) ^ (1 : ℕ)) = 10 := by norm_num
  rw [hpow]
  have hs := rhe_sandwich (q * 10)
  have hlow : (-1 : ℤ) < rhe (q * 10) := by
    have : (-1 : ℚ) < (rhe (q * 10) : ℚ) := by linarith [hs.1]
    exact_mod_cast this
  have hhigh : rhe (q * 10) < 1001 := by
    have : (rhe (q * 10) : ℚ) < 1001 := by linarith [hs.2]
    exact_mod_cast this
  constructor
  · have : (0 : ℚ) ≤ (rhe (q * 10) : ℚ) := by
      exact_mod_cast (by omega : (0:ℤ) ≤ rhe (q * 10))
    positivity
  · rw [div_le_iff₀ (by norm_num : (0:ℚ) < 10)]
    have hle : rhe (q * 10) ≤ 1000 := by omega
    have : (rhe (q * 10) : ℚ) ≤ 1000 := by exact_mod_cast hle
    linarith

/-- A `sumIdx` over a list on which the summand vanishes is zero. -/
theorem sumIdx_eq_zero {f : ℕ → ℚ → ℚ} {l : List ℚ}
    (h : ∀ i y, y ∈ l → f i y = 0) : ∀ i, sumIdx f i l = 0 := by
  induction l with
  | nil => intro i; rfl
  | cons x xs ih =>
      intro i
      have hx : f i x = 0 := h i x (List.mem_cons_self x xs)
      have : sumIdx f (i + 1) xs = 0 :=
        ih (fun j y hy => h j y (List.mem_cons_of_mem x hy)) (i + 1)
      simp [sumIdx, hx, this]

/-- Sum of a constant list. -/
theorem list_sum_const {l : List ℚ} {c : ℚ} (h : ∀ y ∈ l, y = c) :
    l.sum = c * l.length := by
  have : l = List.replicate l.length c := List.eq_replicate_iff.mpr ⟨rfl, h⟩
  rw [this]
  simp [List.sum_replicate, mul_comm]

/-! ## Data model

Modelled from the spec: `backend/models/telemetry.py` is not in the source
tree; the record types below follow the spec's data-model section and the
constructor calls in the embedded modules.  Optional sub-objects carry the
pydantic-style defaults the mock snapshot relies on. -/

/-- Battery block of a telemetry snapshot. -/
structure BatteryHealth where
  soc : ℚ
  voltage : ℚ
  temperature : ℚ
  health_status : String
deriving DecidableEq

/-- Tire-pressure block of a telemetry snapshot (PSI). -/
structure TireStatus where
  front_left : ℚ
  front_right : ℚ
  rear_left : ℚ
  rear_right : ℚ
deriving DecidableEq

/-- Drivetrain block of a telemetry snapshot. -/
structure DrivetrainStatus where
  throttle_position : ℚ := 0
  brake_position : ℚ := 0
  gear_position : String := "P"
  steering_angle : ℚ := 0
deriving DecidableEq

/-- EV-status block of a telemetry snapshot. -/
structure EVStatus where
  ev_range : ℚ := 350
  charging : Bool := false
  regen_braking : Bool := false
deriving DecidableEq

/-- GPS block of a telemetry snapshot. -/
structure GPSLocation where
  latitude : ℚ := 129716/10000
  longitude : ℚ := 775946/10000
deriving DecidableEq

/-- One immutable telemetry snapshot (timestamps as epoch seconds). -/
structure VehicleTelemetry where
  timestamp : ℚ
  speed : ℚ
  battery : BatteryHealth
  tires : TireStatus
  drivetrain : DrivetrainStatus := {}
  ev_status : EVStatus := {}
  gps : GPSLocation := {}
  odometer : ℚ
  engine_status : String
  vehicle_variant : String := "EV"
deriving DecidableEq

/-- Severity levels of an alert. -/
inductive AlertSeverity
  | info
  | warning
  | critical
deriving DecidableEq

/-- One alert record (ids abstracted to `""`, timestamps as epoch seconds). -/
structure AlertModel where
  id : String := ""
  alert_type : String
  severity : AlertSeverity
  message : String
  signal : String
  value : ℚ
  threshold : String
  timestamp : ℚ
deriving DecidableEq

/-- Simulation status mirrored into the store. -/
structure SimulationStatus where
  running : Bool := false
  tick_count : ℕ := 0
  start_time : Option ℚ := none
  message : String := ""
deriving DecidableEq

/-- One loaded signal configuration (contents opaque to every claim). -/
structure SignalConfig where
  name : String
deriving DecidableEq

/-- Entry of `DataStore.battery_history`. -/
structure BatteryEntry where
  timestamp : ℚ
  soc : ℚ
deriving DecidableEq

/-- Entry of `DataStore.speed_history`. -/
structure SpeedEntry where
  timestamp : ℚ
  speed : ℚ
deriving DecidableEq

/-- Entry of `DataStore.tire_history`. -/
structure TireEntry where
  timestamp : ℚ
  front_left : ℚ
  front_right : ℚ
  rear_left : ℚ
  rear_right : ℚ
deriving DecidableEq

/-- Entry of `DataStore.telemetry_history` (the dict built in
`update_telemetry`). -/
structure HistoryRecord where
  timestamp : ℚ
  speed : ℚ
  battery_soc : ℚ
  battery_temp : ℚ
  tire_fl : ℚ
  tire_fr : ℚ
  tire_rl : ℚ
  tire_rr : ℚ
  throttle : ℚ
  brake : ℚ
  ev_range : ℚ
deriving DecidableEq

/-- Entry of `DataStore.ota_history` (contents opaque to every claim). -/
structure OtaRecord where
  version : ℕ
  timestamp : ℚ
deriving DecidableEq

/-- In-memory state of `DataStore` (`backend/services/data_store.py`).
Persistence writes are fire-and-forget and never read back inside the core, so
they do not appear in the state. -/
structure DataStore where
  telemetry : VehicleTelemetry
  alerts : List AlertModel := []
  simulation : SimulationStatus := {}
  battery_history : List BatteryEntry := []
  speed_history : List SpeedEntry := []
  tire_history : List TireEntry := []
  telemetry_history : List HistoryRecord := []
  ota_history : List OtaRecord := []
  ota_version : ℕ := 1
  vehicle_variant : String := "EV"
  signal_configs : List SignalConfig := []
deriving DecidableEq

/-! ## Telemetry store operations (`backend/services/data_store.py`) -/

/-- Transcription of `DataStore._get_mock_telemetry` (the snapshot timestamp is
the current time, passed explicitly). -/
def mockTelemetry (now : ℚ) : VehicleTelemetry where
  timestamp := now
  speed := 60
  battery := { soc := 85, voltage := 395, temperature := 28, health_status := "Good" }
  tires := { front_left := 32, front_right := 63/2, rear_left := 159/5, rear_right := 161/5 }
  odometer := 152345/10
  engine_status := "running"

/-- History record appended by `update_telemetry` for a snapshot. -/
def histRecord (t : VehicleTelemetry) : HistoryRecord where
  timestamp := t.timestamp
  speed := t.speed
  battery_soc := t.battery.soc
  battery_temp := t.battery.temperature
  tire_fl := t.tires.front_left
  tire_fr := t.tires.front_right
  tire_rl := t.tires.rear_left
  tire_rr := t.tires.rear_right
  throttle := t.drivetrain.throttle_position
  brake := t.drivetrain.brake_position
  ev_range := t.ev_status.ev_range

/-- Transcription of `DataStore.update_telemetry` (`now` is
`datetime.utcnow().timestamp()`; the trailing best-effort SQLite write has no
effect on the in-memory state). -/
def DataStore.update_telemetry (st : DataStore) (t : VehicleTelemetry) (now : ℚ) : DataStore :=
  let batEntry : BatteryEntry := { timestamp := now, soc := t.battery.soc }
  let bat := (st.battery_history ++ [batEntry]).filter
    (fun h => decide (now - 300 < h.timestamp))
  let spdEntry : SpeedEntry := { timestamp := now, speed := t.speed }
  let spd := (st.speed_history ++ [spdEntry]).filter
    (fun h => decide (now - 300 < h.timestamp))
  let tireEntry : TireEntry := { timestamp := now, front_left := t.tires.front_left, front_right := t.tires.front_right, rear_left := t.tires.rear_left, rear_right := t.tires.rear_right }
  let tir := (st.tire_history ++ [tireEntry]).filter
    (fun h => decide (now - 300 < h.timestamp))
  let th := st.telemetry_history ++ [histRecord t]
  { st with
    telemetry := t
    battery_history := bat
    speed_history := spd
    tire_history := tir
    telemetry_history := if 300 < th.length then th.rtake 300 else th }

/-- Duplicate test of `DataStore.add_alert`: some alert among the 20 most
recently stored ones has the same type and signal and a timestamp within 10
seconds. -/
def isDupAlert (alerts : List AlertModel) (a : AlertModel) : Prop :=
  ∃ e ∈ alerts.rtake 20,
    e.alert_type = a.alert_type ∧ e.signal = a.signal ∧ |e.timestamp - a.timestamp| < 10

instance (alerts : List AlertModel) (a : AlertModel) : Decidable (isDupAlert alerts a) := by
  unfold isDupAlert; infer_instance

/-- Effect of `DataStore.add_alert` on the alert buffer: drop near-duplicates
(scanning only `self.alerts[-20:]`), otherwise append and keep the latest
100. -/
def add_alert_buf (alerts : List AlertModel) (a : AlertModel) : List AlertModel :=
  if isDupAlert alerts a then alerts else (alerts ++ [a]).rtake 100

/-- Transcription of `DataStore.add_alert` (which mutates only
`self.alerts`). -/
def DataStore.add_alert (st : DataStore) (a : AlertModel) : DataStore :=
  { st with alerts := add_alert_buf st.alerts a }

/-- Transcription of `DataStore.get_alerts`. -/
def DataStore.get_alerts (limit : ℕ) (st : DataStore) : List AlertModel :=
  (pySliceLast limit st.alerts).reverse

/-- Transcription of `DataStore.get_telemetry_history`. -/
def DataStore.get_telemetry_history (limit : ℕ) (st : DataStore) : List HistoryRecord :=
  pySliceLast limit st.telemetry_history

/-- Transcription of `DataStore.reset`. -/
def DataStore.reset (st : DataStore) (now : ℚ) : DataStore :=
  { st with
    telemetry := mockTelemetry now
    alerts := []
    battery_history := []
    speed_history := []
    tire_history := []
    telemetry_history := []
    ota_history := []
    simulation := {} }

/-! ## Suffix-window lemmas used by the history claims -/

/-- Taking `n` from the front absorbs an inner take of the second part. -/
theorem take_append_take (a b : List α) (n : ℕ) :
    (a ++ b.take n).take n = (a ++ b).take n := by
  rw [List.take_append_eq_append_take, List.take_append_eq_append_take, List.take_take]
  congr 1
  exact congrArg (fun k => b.take k) (Nat.min_eq_left (Nat.sub_le n a.length))

/-- Keeping the last `n` absorbs an inner `rtake` of the first part. -/
theorem rtake_append_rtake (l m : List α) (n : ℕ) :
    ((l.rtake n) ++ m).rtake n = (l ++ m).rtake n := by
  have hrev : (l.rtake n).reverse = l.reverse.take n := by
    rw [List.rtake_eq_reverse_take_reverse, List.reverse_reverse]
  calc ((l.rtake n) ++ m).rtake n
      = ((l.rtake n ++ m).reverse.take n).reverse := List.rtake_eq_reverse_take_reverse _ _
    _ = ((m.reverse ++ l.reverse.take n).take n).reverse := by rw [List.reverse_append, hrev]
    _ = ((m.reverse ++ l.reverse).take n).reverse := by rw [take_append_take]
    _ = ((l ++ m).reverse.take n).reverse := by rw [List.reverse_append]
    _ = (l ++ m).rtake n := (List.rtake_eq_reverse_take_reverse _ _).symm

/-- Iterated `rtake`. -/
theorem rtake_rtake (l : List α) (m n : ℕ) :
    (l.rtake n).rtake m = l.rtake (min m n) := by
  have hrev : (l.rtake n).reverse = l.reverse.take n := by
    rw [List.rtake_eq_reverse_take_reverse, List.reverse_reverse]
  rw [List.rtake_eq_reverse_take_reverse, hrev, List.take_take,
    List.rtake_eq_reverse_take_reverse]

/-- Length of `rtake`. -/
theorem length_rtake (l : List α) (n : ℕ) : (l.rtake n).length = min n l.length := by
  rw [List.rtake_eq_reverse_take_reverse]
  simp [Nat.min_comm]

/-- `rtake` keeps a suffix. -/
theorem rtake_suffix (l : List α) (n : ℕ) : l.rtake n <:+ l :=
  List.drop_suffix _ _

/-- A single `update_telemetry` turns the full-snapshot history into the last
300 of the old history plus the new record. -/
theorem update_telemetry_history_step (st : DataStore) (t : VehicleTelemetry) (now : ℚ) :
    (st.update_telemetry t now).telemetry_history =
      (st.telemetry_history ++ [histRecord t]).rtake 300 := by
  show (if 300 < (st.telemetry_history ++ [histRecord t]).length
      then (st.telemetry_history ++ [histRecord t]).rtake 300
      else st.telemetry_history ++ [histRecord t]) =
    (st.telemetry_history ++ [histRecord t]).rtake 300
  split
  · rfl
  · next h =>
      push_neg at h
      rw [List.rtake, Nat.sub_eq_zero_of_le h, List.drop_zero]

/-- Folding any sequence of updates leaves exactly the last 300 derived
records in the full-snapshot history. -/
theorem foldl_update_telemetry_history (rs : List (VehicleTelemetry × ℚ)) :
    ∀ st : DataStore, st.telemetry_history.length ≤ 300 →
      (List.foldl (fun s p => DataStore.update_telemetry s p.1 p.2) st rs).telemetry_history =
        (st.telemetry_history ++ rs.map (fun p => histRecord p.1)).rtake 300 := by
  induction rs with
  | nil =>
      intro st hlen
      simp only [List.foldl_nil, List.map_nil, List.append_nil]
      rw [List.rtake, Nat.sub_eq_zero_of_le hlen, List.drop_zero]
  | cons r rest ih =>
      intro st hlen
      rw [List.foldl_cons]
      have hstep := update_telemetry_history_step st r.1 r.2
      have hlen' : (st.update_telemetry r.1 r.2).telemetry_history.length ≤ 300 := by
        rw [hstep, length_rtake]; omega
      rw [ih _ hlen', hstep, rtake_append_rtake]
      simp [List.append_assoc]

/-- A concrete store as built at process start (empty buffers, mock current
snapshot); used by witnesses. -/
def exStore : DataStore := { telemetry := mockTelemetry 0 }

/-- Claim C10: `reset()` clears the alert buffer and all four history windows
and restores the default snapshot, while leaving the vehicle variant, the OTA
version counter, and the loaded signal configurations unchanged. -/
theorem C10_reset_clears_windows_preserves_config (st : DataStore) (now : ℚ) :
    (st.reset now).alerts = [] ∧
    (st.reset now).battery_history = [] ∧
    (st.reset now).speed_history = [] ∧
    (st.reset now).tire_history = [] ∧
    (st.reset now).telemetry_history = [] ∧
    (st.reset now).telemetry = mockTelemetry now ∧
    (st.reset now).vehicle_variant = st.vehicle_variant ∧
    (st.reset now).ota_version = st.ota_version ∧
    (st.reset now).signal_configs = st.signal_configs :=
  ⟨rfl, rfl, rfl, rfl, rfl, rfl, rfl, rfl, rfl⟩

/-- Claim C2: for every sequence of store updates and every admissible
`limit` (the history route enforces `limit ≥ 1`), `getHistory(limit)` returns
the `min(limit, stored-count)` most recent full-snapshot records in
chronological (oldest-first) order — formalised as being exactly the length-
`min(limit, stored-count)` suffix of the stream of derived records; after 350
consecutive ticks, `getHistory(300)` returns exactly 300 records, the 300 most
recent. -/
theorem C2_get_history_most_recent (st : DataStore) (rs : List (VehicleTelemetry × ℚ))
    (limit : ℕ) (hempty : st.telemetry_history = []) (hl : 1 ≤ limit) :
    DataStore.get_telemetry_history limit
        (List.foldl (fun s p => DataStore.update_telemetry s p.1 p.2) st rs) =
      (rs.map (fun p => histRecord p.1)).rtake (min limit 300) ∧
    (DataStore.get_telemetry_history limit
        (List.foldl (fun s p => DataStore.update_telemetry s p.1 p.2) st rs)).length =
      min limit (min (rs.map (fun p => histRecord p.1)).length 300) ∧
    (DataStore.get_telemetry_history limit
        (List.foldl (fun s p => DataStore.update_telemetry s p.1 p.2) st rs) <:+
      rs.map (fun p => histRecord p.1)) ∧
    (rs.length = 350 → limit = 300 →
      (DataStore.get_telemetry_history limit
        (List.foldl (fun s p => DataStore.update_telemetry s p.1 p.2) st rs)).length = 300) := by
  have h0 : st.telemetry_history.length ≤ 300 := by rw [hempty]; simp
  have hist := foldl_update_telemetry_history rs st h0
  rw [hempty, List.nil_append] at hist
  have hget : DataStore.get_telemetry_history limit
      (List.foldl (fun s p => DataStore.update_telemetry s p.1 p.2) st rs) =
      (rs.map (fun p => histRecord p.1)).rtake (min limit 300) := by
    unfold DataStore.get_telemetry_history pySliceLast
    rw [if_neg (by omega), hist, rtake_rtake]
  refine ⟨hget, ?_, ?_, ?_⟩
  · rw [hget, length_rtake]
    omega
  · rw [hget]
    exact rtake_suffix _ _
  · intro h350 hlim
    rw [hget, length_rtake, List.length_map, h350, hlim]
    omega

/-- Witness for C2 at a concrete run: 350 identical ticks on a fresh store and
`limit = 300` yield exactly 300 records. -/
theorem C2_get_history_most_recent_witness :
    exStore.telemetry_history = [] ∧ 1 ≤ 300 ∧
    (DataStore.get_telemetry_history 300
      (List.foldl (fun s p => DataStore.update_telemetry s p.1 p.2) exStore
        (List.replicate 350 (mockTelemetry 0, (0 : ℚ))))).length = 300 := by
  refine ⟨rfl, by decide, ?_⟩
  have h := C2_get_history_most_recent exStore
    (List.replicate 350 (mockTelemetry 0, (0 : ℚ))) 300 rfl (by decide)
  exact h.2.2.2 (by rw [List.length_replicate]) rfl

/-! ## Health analyzer (`backend/analytics/health_analyzer.py`) -/

/-- Alert built by `HealthAnalyzer._check_tire_pressure` for one tire. -/
def tireAlert (t : VehicleTelemetry) (signal_id label : String) (pressure : ℚ) : AlertModel :=
  { alert_type := "tire_pressure_low"
    severity := .critical
    message := "Possible Tire Failure: " ++ label ++ " tire pressure at " ++
      pyFmt1 pressure ++ " PSI (below 25 PSI threshold)"
    signal := signal_id
    value := pressure
    threshold := "< 25 PSI"
    timestamp := t.timestamp }

/-- Transcription of `HealthAnalyzer._check_tire_pressure` (the loop over the
four-entry `tire_map` dict is unrolled in insertion order). -/
def check_tire_pressure (t : VehicleTelemetry) : List AlertModel :=
  (if t.tires.front_left < 25 then [tireAlert t "tire_pressure_fl" "Front Left" t.tires.front_left] else []) ++
  (if t.tires.front_right < 25 then [tireAlert t "tire_pressure_fr" "Front Right" t.tires.front_right] else []) ++
  (if t.tires.rear_left < 25 then [tireAlert t "tire_pressure_rl" "Rear Left" t.tires.rear_left] else []) ++
  (if t.tires.rear_right < 25 then [tireAlert t "tire_pressure_rr" "Rear Right" t.tires.rear_right] else [])

/-- Transcription of `HealthAnalyzer._check_battery_degradation`. -/
def check_battery_degradation (t : VehicleTelemetry) (store : DataStore) : Option AlertModel :=
  if store.battery_history.length < 2 then none
  else
    let oldest_soc := (store.battery_history.headD { timestamp := 0, soc := 0 }).soc
    let current_soc := t.battery.soc
    let drop := oldest_soc - current_soc
    if 5 < drop then
      some { alert_type := "battery_degradation"
             severity := .critical
             message := "Battery Degradation Alert: SoC dropped " ++ pyFmt1 drop ++
               "% (from " ++ pyFmt1 oldest_soc ++ "% to " ++ pyFmt1 current_soc ++ "%)"
             signal := "battery_soc"
             value := current_soc
             threshold := "> 5% drop in monitoring window"
             timestamp := t.timestamp }
    else none

/-- Alert built by `HealthAnalyzer._check_high_speed`. -/
def highSpeedAlert (t : VehicleTelemetry) : AlertModel :=
  { alert_type := "high_speed_stress"
    severity := .warning
    message := "High Speed Stress Warning: Vehicle sustained speed above 100 km/h (current: " ++
      pyFmt1 t.speed ++ " km/h)"
    signal := "speed"
    value := t.speed
    threshold := "> 100 km/h sustained for 10+ seconds"
    timestamp := t.timestamp }

/-- Transcription of `HealthAnalyzer._check_high_speed`: the last 10 window
entries must all be strictly above 100 km/h. -/
def check_high_speed (t : VehicleTelemetry) (store : DataStore) : Option AlertModel :=
  if store.speed_history.length < 10 then none
  else if ∀ e ∈ store.speed_history.rtake 10, 100 < e.speed then some (highSpeedAlert t)
  else none

/-- Transcription of `HealthAnalyzer._check_harsh_braking`. -/
def check_harsh_braking (t : VehicleTelemetry) : Option AlertModel :=
  if 90 < t.drivetrain.brake_position then
    some { alert_type := "harsh_braking"
           severity := .warning
           message := "Harsh Braking Detected: Brake at " ++
             pyFmt1 t.drivetrain.brake_position ++ "% (above 90% threshold)"
           signal := "brake_position"
           value := t.drivetrain.brake_position
           threshold := "> 90%"
           timestamp := t.timestamp }
  else none

/-- Transcription of `HealthAnalyzer._check_harsh_acceleration`. -/
def check_harsh_acceleration (t : VehicleTelemetry) (store : DataStore) : Option AlertModel :=
  if 90 < t.drivetrain.throttle_position then
    if 5 ≤ store.speed_history.length then
      some { alert_type := "harsh_acceleration"
             severity := .warning
             message := "Harsh Acceleration: Throttle at " ++
               pyFmt1 t.drivetrain.throttle_position ++ "% (above 90% sustained)"
             signal := "throttle_position"
             value := t.drivetrain.throttle_position
             threshold := "> 90% sustained"
             timestamp := t.timestamp }
    else none
  else none

/-- Transcription of `HealthAnalyzer._check_ev_range`. -/
def check_ev_range (t : VehicleTelemetry) : Option AlertModel :=
  if t.ev_status.ev_range < 30 then
    some { alert_type := "low_ev_range"
           severity := .warning
           message := "Low EV Range Alert: Only " ++ pyFmt1 t.ev_status.ev_range ++
             " km remaining (below 30 km threshold)"
           signal := "ev_range"
           value := t.ev_status.ev_range
           threshold := "< 30 km"
           timestamp := t.timestamp }
  else none

/-- Transcription of `HealthAnalyzer.analyze`: all six rules evaluated
independently, results concatenated in source order. -/
def HealthAnalyzer.analyze (t : VehicleTelemetry) (store : DataStore) : List AlertModel :=
  check_tire_pressure t ++
  (check_battery_degradation t store).toList ++
  (check_high_speed t store).toList ++
  (check_harsh_braking t).toList ++
  (check_harsh_acceleration t store).toList ++
  (check_ev_range t).toList

/-- Claim C3: `analyze` emits exactly one `high_speed_stress` warning alert
precisely when the speed window holds at least 10 samples whose 10 most recent
entries are all strictly above 100 km/h, and none otherwise; the filtered
result is the explicit singleton warning alert in the positive case. -/
theorem C3_high_speed_stress_exactly_one (t : VehicleTelemetry) (store : DataStore) :
    (HealthAnalyzer.analyze t store).filter (fun a => a.alert_type == "high_speed_stress") =
      (if 10 ≤ store.speed_history.length ∧ (∀ e ∈ store.speed_history.rtake 10, 100 < e.speed)
       then [highSpeedAlert t] else []) := by
  unfold HealthAnalyzer.analyze
  simp only [List.filter_append]
  have htire : (check_tire_pressure t).filter (fun a => a.alert_type == "high_speed_stress") = [] := by
    unfold check_tire_pressure
    split_ifs <;> simp [tireAlert]
  have hbat : (check_battery_degradation t store).toList.filter
      (fun a => a.alert_type == "high_speed_stress") = [] := by
    unfold check_battery_degradation
    split_ifs <;> simp
  have hbrake : (check_harsh_braking t).toList.filter
      (fun a => a.alert_type == "high_speed_stress") = [] := by
    unfold check_harsh_braking
    split_ifs <;> simp
  have haccel : (check_harsh_acceleration t store).toList.filter
      (fun a => a.alert_type == "high_speed_stress") = [] := by
    unfold check_harsh_acceleration
    split_ifs <;> simp
  have hev : (check_ev_range t).toList.filter
      (fun a => a.alert_type == "high_speed_stress") = [] := by
    unfold check_ev_range
    split_ifs <;> simp
  rw [htire, hbat, hbrake, haccel, hev]
  unfold check_high_speed
  split_ifs with h1 h2 h3 <;> simp_all [highSpeedAlert] <;> omega

/-- Claim C4: for each of the four tires, `analyze` emits exactly one critical
`tire_pressure_low` alert naming that tire when its pressure is strictly below
25 PSI, and none for that tire otherwise. -/
theorem C4_tire_pressure_low_per_tire (t : VehicleTelemetry) (store : DataStore) :
    ((HealthAnalyzer.analyze t store).filter
        (fun a => a.alert_type == "tire_pressure_low" && a.signal == "tire_pressure_fl") =
      (if t.tires.front_left < 25
       then [tireAlert t "tire_pressure_fl" "Front Left" t.tires.front_left] else [])) ∧
    ((HealthAnalyzer.analyze t store).filter
        (fun a => a.alert_type == "tire_pressure_low" && a.signal == "tire_pressure_fr") =
      (if t.tires.front_right < 25
       then [tireAlert t "tire_pressure_fr" "Front Right" t.tires.front_right] else [])) ∧
    ((HealthAnalyzer.analyze t store).filter
        (fun a => a.alert_type == "tire_pressure_low" && a.signal == "tire_pressure_rl") =
      (if t.tires.rear_left < 25
       then [tireAlert t "tire_pressure_rl" "Rear Left" t.tires.rear_left] else [])) ∧
    ((HealthAnalyzer.analyze t store).filter
        (fun a => a.alert_type == "tire_pressure_low" && a.signal == "tire_pressure_rr") =
      (if t.tires.rear_right < 25
       then [tireAlert t "tire_pressure_rr" "Rear Right" t.tires.rear_right] else [])) := by
  have hcomp : ∀ sig : String,
      ((check_battery_degradation t store).toList.filter
        (fun a => a.alert_type == "tire_pressure_low" && a.signal == sig) = []) ∧
      ((check_high_speed t store).toList.filter
        (fun a => a.alert_type == "tire_pressure_low" && a.signal == sig) = []) ∧
      ((check_harsh_braking t).toList.filter
        (fun a => a.alert_type == "tire_pressure_low" && a.signal == sig) = []) ∧
      ((check_harsh_acceleration t store).toList.filter
        (fun a => a.alert_type == "tire_pressure_low" && a.signal == sig) = []) ∧
      ((check_ev_range t).toList.filter
        (fun a => a.alert_type == "tire_pressure_low" && a.signal == sig) = []) := by
    intro sig
    refine ⟨?_, ?_, ?_, ?_, ?_⟩
    · unfold check_battery_degradation; split_ifs <;> simp
    · unfold check_high_speed; split_ifs <;> simp [highSpeedAlert]
    · unfold check_harsh_braking; split_ifs <;> simp
    · unfold check_harsh_acceleration; split_ifs <;> simp
    · unfold check_ev_range; split_ifs <;> simp
  refine ⟨?_, ?_, ?_, ?_⟩ <;>
    · simp only [HealthAnalyzer.analyze, List.filter_append]
      first
      | rw [(hcomp "tire_pressure_fl").1, (hcomp "tire_pressure_fl").2.1,
          (hcomp "tire_pressure_fl").2.2.1, (hcomp "tire_pressure_fl").2.2.2.1,
          (hcomp "tire_pressure_fl").2.2.2.2]
      | rw [(hcomp "tire_pressure_fr").1, (hcomp "tire_pressure_fr").2.1,
          (hcomp "tire_pressure_fr").2.2.1, (hcomp "tire_pressure_fr").2.2.2.1,
          (hcomp "tire_pressure_fr").2.2.2.2]
      | rw [(hcomp "tire_pressure_rl").1, (hcomp "tire_pressure_rl").2.1,
          (hcomp "tire_pressure_rl").2.2.1, (hcomp "tire_pressure_rl").2.2.2.1,
          (hcomp "tire_pressure_rl").2.2.2.2]
      | rw [(hcomp "tire_pressure_rr").1, (hcomp "tire_pressure_rr").2.1,
          (hcomp "tire_pressure_rr").2.2.1, (hcomp "tire_pressure_rr").2.2.2.1,
          (hcomp "tire_pressure_rr").2.2.2.2]
      unfold check_tire_pressure
      split_ifs <;> simp [tireAlert]

/-! ## Predictive engine (`backend/analytics/predictive_engine.py`) -/

/-- One prediction result (`Prediction` dataclass). -/
structure Prediction where
  signal : String
  prediction_type : String
  current_value : ℚ
  predicted_value : ℚ
  confidence : ℚ
  time_horizon_seconds : ℤ
  message : String
  severity : String
deriving DecidableEq

/-- Driving-score details dict. -/
structure ScoreDetails where
  avg_speed_kmh : ℚ
  max_speed_kmh : ℚ
  avg_speed_change : ℚ
  data_points : ℕ
deriving DecidableEq

/-- Driving efficiency/behaviour score (`DrivingScore` dataclass). -/
structure DrivingScore where
  overall_score : ℚ
  speed_score : ℚ
  braking_score : ℚ
  efficiency_score : ℚ
  details : ScoreDetails
deriving DecidableEq

/-- Transcription of `_linear_regression`: ordinary least squares of the
values against their sample index, returning `(slope, intercept)`. -/
def linear_regression (values : List ℚ) : ℚ × ℚ :=
  let n := values.length
  if n < 2 then (0, values.headD 0)
  else
    let x_mean : ℚ := ((n : ℚ) - 1) / 2
    let y_mean : ℚ := values.sum / (n : ℚ)
    let numerator := sumIdx (fun i y => ((i : ℚ) - x_mean) * (y - y_mean)) 0 values
    let denominator := sumIdx (fun i _ => ((i : ℚ) - x_mean) ^ 2) 0 values
    if denominator = 0 then (0, y_mean)
    else
      let slope := numerator / denominator
      (slope, y_mean - slope * x_mean)

/-- Residual sum of squares of `_r_squared` (named so claims can refer to
it). -/
def ss_res_of (values : List ℚ) (slope intercept : ℚ) : ℚ :=
  sumIdx (fun i y => (y - (slope * (i : ℚ) + intercept)) ^ 2) 0 values

/-- Total sum of squares of `_r_squared`. -/
def ss_tot_of (values : List ℚ) : ℚ :=
  sumIdx (fun _ y => (y - values.sum / (values.length : ℚ)) ^ 2) 0 values

/-- Transcription of `_r_squared`. -/
def r_squared (values : List ℚ) (slope intercept : ℚ) : ℚ :=
  if values.length < 2 then 0
  else if ss_tot_of values = 0 then 1
  else max 0 (1 - ss_res_of values slope intercept / ss_tot_of values)

/-- Transcription of `predict_battery_depletion`. -/
def predict_battery_depletion (battery_history : List BatteryEntry) : Option Prediction :=
  if battery_history.length < 10 then none
  else
    let soc_values := battery_history.map (fun h => h.soc)
    let sl := linear_regression soc_values
    if 0 ≤ sl.1 then
      some { signal := "battery_soc"
             prediction_type := "battery_depletion"
             current_value := soc_values.getLastD 0
             predicted_value := soc_values.getLastD 0
             confidence := 1/2
             time_horizon_seconds := 0
             message := "Battery SoC is stable or increasing"
             severity := "info" }
    else
      let current := soc_values.getLastD 0
      let target : ℚ := 10
      let seconds_to_critical : ℤ :=
        if sl.1 = 0 then 99999 else pytrunc ((target - current) / sl.1)
      let predicted_soc_60s := max 0 (current + sl.1 * 60)
      let r2 := r_squared soc_values sl.1 sl.2
      let confidence := min (95/100) r2
      let severity :=
        if seconds_to_critical < 300 then "critical"
        else if seconds_to_critical < 900 then "warning"
        else "info"
      some { signal := "battery_soc"
             prediction_type := "battery_depletion"
             current_value := pyround 1 current
             predicted_value := pyround 1 predicted_soc_60s
             confidence := pyround 2 confidence
             time_horizon_seconds := seconds_to_critical
             message := "Battery SoC declining at " ++ pyFmt1 (|sl.1|) ++
               " percent per second. Predicted to reach 10 percent in " ++
               toString seconds_to_critical ++ "s. SoC in 60s: " ++
               pyFmt1 predicted_soc_60s ++ " percent"
             severity := severity }

/-- Raw (pre-rounding) speed sub-score of `calculate_driving_score`. -/
def raw_speed_score (speeds : List ℚ) : ℚ :=
  max 0 (100 - max 0 (pyListMax speeds - 120) * 2)

/-- Tick-to-tick speed deltas of `calculate_driving_score`. -/
def speed_deltas (speeds : List ℚ) : List ℚ :=
  List.zipWith (fun prev next => |next - prev|) speeds speeds.tail

/-- Raw (pre-rounding) braking sub-score of `calculate_driving_score`. -/
def raw_braking_score (speeds : List ℚ) : ℚ :=
  max 0 (100 - (if (speed_deltas speeds).isEmpty then 0
    else (speed_deltas speeds).sum / ((speed_deltas speeds).length : ℚ)) * 10)

/-- Raw (pre-rounding) efficiency sub-score of `calculate_driving_score`
(`soc_used` is first-minus-last window SoC, `km_driven` the average speed
times the sample count over 3600). -/
def raw_efficiency_score (speeds : List ℚ) (speed_count : ℕ)
    (battery_history : List BatteryEntry) : ℚ :=
  if 2 ≤ battery_history.length then
    if 0 < speeds.sum / (speeds.length : ℚ) * (speed_count : ℚ) / 3600 ∧
        0 < (battery_history.headD { timestamp := 0, soc := 0 }).soc -
          (battery_history.getLastD { timestamp := 0, soc := 0 }).soc then
      max 0 (100 - ((battery_history.headD { timestamp := 0, soc := 0 }).soc -
        (battery_history.getLastD { timestamp := 0, soc := 0 }).soc) * (775/1000) * 5)
    else 80
  else 80

/-- Transcription of `calculate_driving_score`. -/
def calculate_driving_score (speed_history : List SpeedEntry)
    (battery_history : List BatteryEntry) : Option DrivingScore :=
  if speed_history.length < 10 then none
  else
    let speeds := speed_history.map (fun h => h.speed)
    let avg_speed := speeds.sum / (speeds.length : ℚ)
    let max_speed := pyListMax speeds
    let speed_score := raw_speed_score speeds
    let deltas := speed_deltas speeds
    let avg_delta := if deltas.isEmpty then 0 else deltas.sum / (deltas.length : ℚ)
    let braking_score := raw_braking_score speeds
    let efficiency_score := raw_efficiency_score speeds speed_history.length battery_history
    let overall := speed_score * (3/10) + braking_score * (4/10) + efficiency_score * (3/10)
    some { overall_score := pyround 1 overall
           speed_score := pyround 1 speed_score
           braking_score := pyround 1 braking_score
           efficiency_score := pyround 1 efficiency_score
           details := { avg_speed_kmh := pyround 1 avg_speed
                        max_speed_kmh := pyround 1 max_speed
                        avg_speed_change := pyround 2 avg_delta
                        data_points := speed_history.length } }

/-- The last element (with default) of a nonempty list belongs to it. -/
theorem getLastD_mem_self : ∀ (l : List ℚ) (d : ℚ), l ≠ [] → l.getLastD d ∈ l := by
  intro l
  induction l with
  | nil => intro d h; exact absurd rfl h
  | cons x xs ih =>
      intro d _
      cases hxs : xs with
      | nil => simp [List.getLastD]
      | cons y t =>
          have hne : xs ≠ [] := by rw [hxs]; simp
          have hmem := ih x hne
          rw [List.getLastD_cons, ← hxs]
          exact List.mem_cons_of_mem x hmem

/-- On a constant series the least-squares fit is flat: slope `0`, intercept
the common value. -/
theorem linear_regression_const {values : List ℚ} {c : ℚ}
    (h2 : 2 ≤ values.length) (hc : ∀ y ∈ values, y = c) :
    linear_regression values = (0, c) := by
  have hn0 : (values.length : ℚ) ≠ 0 := Nat.cast_ne_zero.mpr (by omega)
  have hmean : values.sum / (values.length : ℚ) = c := by
    rw [list_sum_const hc]; field_simp
  have hnum : ∀ x : ℚ, sumIdx (fun i y => ((i : ℚ) - x) * (y - c)) 0 values = 0 := by
    intro x
    exact sumIdx_eq_zero (fun i y hy => by rw [hc y hy]; ring) 0
  unfold linear_regression
  rw [if_neg (by omega)]
  simp only [hmean, hnum]
  split_ifs <;> simp

/-- On a constant series the total sum of squares vanishes. -/
theorem ss_tot_const {values : List ℚ} {c : ℚ}
    (hlen : values.length ≠ 0) (hc : ∀ y ∈ values, y = c) :
    ss_tot_of values = 0 := by
  have hn0 : (values.length : ℚ) ≠ 0 := Nat.cast_ne_zero.mpr hlen
  have hmean : values.sum / (values.length : ℚ) = c := by
    rw [list_sum_const hc]; field_simp
  unfold ss_tot_of
  rw [hmean]
  exact sumIdx_eq_zero (fun i y hy => by rw [hc y hy]; ring) 0

/-- Every tick-to-tick speed delta is nonnegative. -/
theorem speed_deltas_nonneg : ∀ (l : List ℚ), ∀ d ∈ speed_deltas l, 0 ≤ d := by
  intro l
  induction l with
  | nil => intro d hd; simp [speed_deltas] at hd
  | cons x xs ih =>
      intro d hd
      cases xs with
      | nil => simp [speed_deltas] at hd
      | cons y t =>
          rw [speed_deltas, List.tail_cons, List.zipWith_cons_cons] at hd
          rcases List.mem_cons.mp hd with rfl | hd'
          · exact abs_nonneg _
          · exact ih d (by rw [speed_deltas, List.tail_cons]; exact hd')

/-- Claim C8 (counterexample): on the zero-variance series `[5, 5]` with the
non-fitted parameters `slope = 1`, `intercept = 0`, `_r_squared` returns `1.0`
although the residual sum of squares is `41 ≠ 0`, contradicting the claim that
`1.0` is returned only when the residual sum is also `0` (and `0` otherwise). -/
theorem C8_counterexample_r_squared_one_with_residual :
    r_squared [5, 5] 1 0 = 1 ∧ ss_res_of [5, 5] 1 0 = 41 ∧ (41 : ℚ) ≠ 0 := by
  refine ⟨?_, ?_, by norm_num⟩
  · norm_num [r_squared, ss_tot_of, sumIdx]
  · norm_num [ss_res_of, sumIdx]

/-- Claim C8 (amended): a zero-variance series of at least two samples has
fitted slope `0`, and with the fitted parameters the residual sum is `0` and
R² is `1.0`; in general `_r_squared` returns `1.0` whenever the total sum of
squares is `0`, regardless of the residual sum. -/
theorem C8_zero_variance_amended :
    (∀ (values : List ℚ) (c : ℚ), 2 ≤ values.length → (∀ y ∈ values, y = c) →
      (linear_regression values).1 = 0 ∧
      ss_res_of values (linear_regression values).1 (linear_regression values).2 = 0 ∧
      r_squared values (linear_regression values).1 (linear_regression values).2 = 1) ∧
    (∀ (values : List ℚ) (slope intercept : ℚ),
      2 ≤ values.length → ss_tot_of values = 0 → r_squared values slope intercept = 1) := by
  constructor
  · intro values c h2 hc
    have hlr := linear_regression_const h2 hc
    have htot : ss_tot_of values = 0 := ss_tot_const (by omega) hc
    rw [hlr]
    refine ⟨rfl, ?_, ?_⟩
    · exact sumIdx_eq_zero (fun i y hy => by rw [hc y hy]; ring) 0
    · unfold r_squared
      rw [if_neg (by omega), if_pos htot]
  · intro values slope intercept h2 htot
    unfold r_squared
    rw [if_neg (by omega), if_pos htot]

/-- Claim C5 (counterexample): the strictly decreasing 10-sample SoC series
`9, 8, …, 0` yields a non-null prediction whose time horizon is `-10 < 0` and
whose predicted and current values are both `0`, so neither
`timeHorizonSeconds ≥ 0` nor `predictedValue < currentValue` holds. -/
theorem C5_counterexample_decreasing_series :
    (predict_battery_depletion
        [⟨0, 9⟩, ⟨1, 8⟩, ⟨2, 7⟩, ⟨3, 6⟩, ⟨4, 5⟩, ⟨5, 4⟩, ⟨6, 3⟩, ⟨7, 2⟩, ⟨8, 1⟩, ⟨9, 0⟩]).map
        (fun p => (p.time_horizon_seconds, p.predicted_value, p.current_value)) =
      some (-10, 0, 0) ∧ (-10 : ℤ) < 0 ∧ ¬ ((0 : ℚ) < 0) := by
  refine ⟨?_, by norm_num, by norm_num⟩
  norm_num [predict_battery_depletion, linear_regression, sumIdx, r_squared,
    ss_tot_of, ss_res_of, pytrunc, pyround, rhe, List.getLastD]

/-- Claim C5 (amended): with fewer than 10 samples the prediction is `none`;
on a constant series of at least 10 samples it is the "stable" result with
confidence `0.5` and time horizon `0`; on any window of at least 10 samples
whose fitted slope is negative (as on any strictly decreasing series) the
prediction is non-null, its time horizon is nonnegative provided the current
SoC is at least the 10% target, and its predicted value is strictly below its
current value provided additionally the fitted 60-second decline exceeds the
0.1% rounding step. -/
theorem C5_battery_depletion_amended :
    (∀ bh : List BatteryEntry, bh.length < 10 → predict_battery_depletion bh = none) ∧
    (∀ (bh : List BatteryEntry) (c : ℚ), 10 ≤ bh.length → (∀ e ∈ bh, e.soc = c) →
      predict_battery_depletion bh =
        some { signal := "battery_soc", prediction_type := "battery_depletion",
               current_value := c, predicted_value := c, confidence := 1/2,
               time_horizon_seconds := 0,
               message := "Battery SoC is stable or increasing", severity := "info" }) ∧
    (∀ bh : List BatteryEntry, 10 ≤ bh.length →
      (linear_regression (bh.map (fun h => h.soc))).1 < 0 →
      ∃ p, predict_battery_depletion bh = some p ∧
        (10 ≤ (bh.map (fun h => h.soc)).getLastD 0 → 0 ≤ p.time_horizon_seconds) ∧
        ((10 ≤ (bh.map (fun h => h.soc)).getLastD 0 ∧
            (linear_regression (bh.map (fun h => h.soc))).1 * 60 < -(1/10)) →
          p.predicted_value < p.current_value)) := by
  refine ⟨?_, ?_, ?_⟩
  · intro bh h
    unfold predict_battery_depletion
    rw [if_pos h]
  · intro bh c hlen hconst
    have hmap : ∀ y ∈ bh.map (fun h => h.soc), y = c := by
      intro y hy
      rcases List.mem_map.mp hy with ⟨e, he, rfl⟩
      exact hconst e he
    have hlen2 : 2 ≤ (bh.map (fun h => h.soc)).length := by
      rw [List.length_map]; omega
    have hlr := linear_regression_const hlen2 hmap
    have hne : bh.map (fun h => h.soc) ≠ [] :=
      List.ne_nil_of_length_pos (by rw [List.length_map]; omega)
    have hlast : (bh.map (fun h => h.soc)).getLastD 0 = c :=
      hmap _ (getLastD_mem_self _ _ hne)
    unfold predict_battery_depletion
    rw [if_neg (by omega)]
    simp only [hlr, hlast]
    norm_num
  · intro bh hlen hslope
    unfold predict_battery_depletion
    rw [if_neg (by omega), if_neg (not_le.mpr hslope)]
    refine ⟨_, rfl, ?_, ?_⟩
    · intro hcur
      simp only
      rw [if_neg (ne_of_lt hslope)]
      have hq : 0 ≤ (10 - (bh.map (fun h => h.soc)).getLastD 0) /
          (linear_regression (bh.map (fun h => h.soc))).1 :=
        div_nonneg_iff.mpr (Or.inr ⟨by linarith, le_of_lt hslope⟩)
      unfold pytrunc
      rw [if_pos hq]
      exact Int.floor_nonneg.mpr hq
    · rintro ⟨hcur, hdrop⟩
      simp only
      apply pyround_one_strict
      rcases le_or_lt ((bh.map (fun h => h.soc)).getLastD 0 +
          (linear_regression (bh.map (fun h => h.soc))).1 * 60) 0 with hle | hpos
      · rw [max_eq_left (by linarith)]
        linarith
      · rw [max_eq_right (le_of_lt hpos)]
        linarith

/-- Ten constant SoC samples (for the stable branch of C5). -/
def exConstBattery : List BatteryEntry :=
  [⟨0, 50⟩, ⟨1, 50⟩, ⟨2, 50⟩, ⟨3, 50⟩, ⟨4, 50⟩, ⟨5, 50⟩, ⟨6, 50⟩, ⟨7, 50⟩, ⟨8, 50⟩, ⟨9, 50⟩]

/-- The spec's example series: SoC `100, 99, …, 81` over 20 samples. -/
def exDecliningBattery : List BatteryEntry :=
  [⟨0, 100⟩, ⟨1, 99⟩, ⟨2, 98⟩, ⟨3, 97⟩, ⟨4, 96⟩, ⟨5, 95⟩, ⟨6, 94⟩, ⟨7, 93⟩, ⟨8, 92⟩,
   ⟨9, 91⟩, ⟨10, 90⟩, ⟨11, 89⟩, ⟨12, 88⟩, ⟨13, 87⟩, ⟨14, 86⟩, ⟨15, 85⟩, ⟨16, 84⟩,
   ⟨17, 83⟩, ⟨18, 82⟩, ⟨19, 81⟩]

/-- Witness for C5 at concrete windows: the empty window, ten constant
samples, and the spec's strictly decreasing 20-sample series. -/
theorem C5_battery_depletion_amended_witness :
    (predict_battery_depletion [] = none) ∧
    (predict_battery_depletion exConstBattery =
      some { signal := "battery_soc", prediction_type := "battery_depletion",
             current_value := 50, predicted_value := 50, confidence := 1/2,
             time_horizon_seconds := 0,
             message := "Battery SoC is stable or increasing", severity := "info" }) ∧
    (∃ p, predict_battery_depletion exDecliningBattery = some p ∧
      0 ≤ p.time_horizon_seconds ∧ p.predicted_value < p.current_value) := by
  have hslope : (linear_regression (exDecliningBattery.map (fun h => h.soc))).1 = -1 := by
    norm_num [exDecliningBattery, linear_regression, sumIdx]
  have hlast : (exDecliningBattery.map (fun h => h.soc)).getLastD 0 = 81 := by
    norm_num [exDecliningBattery, List.getLastD_cons, List.getLastD]
  refine ⟨C5_battery_depletion_amended.1 [] (by decide),
    C5_battery_depletion_amended.2.1 exConstBattery 50 (by decide)
      (by intro e he; fin_cases he <;> rfl), ?_⟩
  obtain ⟨p, hp, hh, hlt⟩ :=
    C5_battery_depletion_amended.2.2 exDecliningBattery (by decide)
      (by rw [hslope]; norm_num)
  refine ⟨p, hp, hh (by rw [hlast]; norm_num), hlt ⟨by rw [hlast]; norm_num, ?_⟩⟩
  rw [hslope]
  norm_num

/-- The raw speed sub-score lies in `[0, 100]`. -/
theorem raw_speed_score_mem (speeds : List ℚ) :
    0 ≤ raw_speed_score speeds ∧ raw_speed_score speeds ≤ 100 := by
  unfold raw_speed_score
  have h0 : 0 ≤ max 0 (pyListMax speeds - 120) := le_max_left 0 _
  exact ⟨le_max_left 0 _, max_le (by norm_num) (by linarith)⟩

/-- The raw braking sub-score lies in `[0, 100]`. -/
theorem raw_braking_score_mem (speeds : List ℚ) :
    0 ≤ raw_braking_score speeds ∧ raw_braking_score speeds ≤ 100 := by
  unfold raw_braking_score
  have havg : 0 ≤ (if (speed_deltas speeds).isEmpty then 0
      else (speed_deltas speeds).sum / ((speed_deltas speeds).length : ℚ)) := by
    split_ifs
    · exact le_refl 0
    · exact div_nonneg
        (List.sum_nonneg (fun d hdm => speed_deltas_nonneg speeds d hdm))
        (by positivity)
  exact ⟨le_max_left 0 _, max_le (by norm_num) (by nlinarith)⟩

/-- The raw efficiency sub-score lies in `[0, 100]`. -/
theorem raw_efficiency_score_mem (speeds : List ℚ) (n : ℕ) (bh : List BatteryEntry) :
    0 ≤ raw_efficiency_score speeds n bh ∧ raw_efficiency_score speeds n bh ≤ 100 := by
  unfold raw_efficiency_score
  split_ifs with h1 h2
  · have hpos : 0 < ((bh.headD { timestamp := 0, soc := 0 }).soc -
        (bh.getLastD { timestamp := 0, soc := 0 }).soc) * (775/1000) * 5 := by
      nlinarith [h2.2]
    exact ⟨le_max_left 0 _, max_le (by norm_num) (by linarith)⟩
  · norm_num
  · norm_num

/-- Claim C7 (amended): `calculateDrivingScore` returns no result on fewer
than 10 speed samples; otherwise the returned overall score is the one-decimal
rounding of `0.3·speed + 0.4·braking + 0.3·efficiency` computed from the
unrounded sub-scores (so it may differ from the same combination of the
returned, rounded sub-scores by up to half a rounding step), and the three
returned sub-scores and the overall score all lie within `[0, 100]`. -/
theorem C7_driving_score_amended :
    (∀ (sh : List SpeedEntry) (bh : List BatteryEntry), sh.length < 10 →
      calculate_driving_score sh bh = none) ∧
    (∀ (sh : List SpeedEntry) (bh : List BatteryEntry), 10 ≤ sh.length →
      ∃ ds, calculate_driving_score sh bh = some ds ∧
        ds.overall_score = pyround 1 (raw_speed_score (sh.map (fun h => h.speed)) * (3/10) +
          raw_braking_score (sh.map (fun h => h.speed)) * (4/10) +
          raw_efficiency_score (sh.map (fun h => h.speed)) sh.length bh * (3/10)) ∧
        (0 ≤ ds.speed_score ∧ ds.speed_score ≤ 100) ∧
        (0 ≤ ds.braking_score ∧ ds.braking_score ≤ 100) ∧
        (0 ≤ ds.efficiency_score ∧ ds.efficiency_score ≤ 100) ∧
        (0 ≤ ds.overall_score ∧ ds.overall_score ≤ 100)) := by
  constructor
  · intro sh bh h
    unfold calculate_driving_score
    rw [if_pos h]
  · intro sh bh hlen
    unfold calculate_driving_score
    rw [if_neg (by omega)]
    refine ⟨_, rfl, rfl, ?_, ?_, ?_, ?_⟩
    · exact pyround_mem_Icc (raw_speed_score_mem _).1 (raw_speed_score_mem _).2
    · exact pyround_mem_Icc (raw_braking_score_mem _).1 (raw_braking_score_mem _).2
    · exact pyround_mem_Icc (raw_efficiency_score_mem _ _ _).1 (raw_efficiency_score_mem _ _ _).2
    · have hs := raw_speed_score_mem (sh.map (fun h => h.speed))
      have hb := raw_braking_score_mem (sh.map (fun h => h.speed))
      have he := raw_efficiency_score_mem (sh.map (fun h => h.speed)) sh.length bh
      exact pyround_mem_Icc (by nlinarith [hs.1, hb.1, he.1]) (by nlinarith [hs.2, hb.2, he.2])

/-- Ten speed samples with one unit spike (used to exhibit the rounding gap in
C7). -/
def exSpeeds : List SpeedEntry :=
  [⟨0, 0⟩, ⟨1, 1⟩, ⟨2, 0⟩, ⟨3, 0⟩, ⟨4, 0⟩, ⟨5, 0⟩, ⟨6, 0⟩, ⟨7, 0⟩, ⟨8, 0⟩, ⟨9, 0⟩]

/-- Claim C7 (counterexample): on ten samples `0,1,0,…,0` with an empty
battery window the returned scores are `overall = 93.1`, `speed = 100`,
`braking = 97.8`, `efficiency = 80`, and `93.1 ≠ 0.3·100 + 0.4·97.8 + 0.3·80
= 93.12`: the returned overall is not the stated combination of the returned
sub-scores. -/
theorem C7_counterexample_rounded_overall :
    (calculate_driving_score exSpeeds []).map
        (fun ds => (ds.overall_score, ds.speed_score, ds.braking_score, ds.efficiency_score)) =
      some (931/10, 100, 489/5, 80) ∧
    (931/10 : ℚ) ≠ 100 * (3/10) + (489/5) * (4/10) + 80 * (3/10) := by
  constructor
  · norm_num [calculate_driving_score, raw_speed_score, raw_braking_score,
      raw_efficiency_score, speed_deltas, pyListMax, pyround, rhe, sumIdx,
      exSpeeds, max_def, List.getLastD]
  · norm_num

/-- Witness for C7 at concrete windows: the empty speed window and the
ten-sample spiky window. -/
theorem C7_driving_score_amended_witness :
    (calculate_driving_score [] [] = none) ∧
    (∃ ds, calculate_driving_score exSpeeds [] = some ds ∧
      ds.overall_score = pyround 1 (raw_speed_score (exSpeeds.map (fun h => h.speed)) * (3/10) +
        raw_braking_score (exSpeeds.map (fun h => h.speed)) * (4/10) +
        raw_efficiency_score (exSpeeds.map (fun h => h.speed)) exSpeeds.length [] * (3/10)) ∧
      (0 ≤ ds.speed_score ∧ ds.speed_score ≤ 100) ∧
      (0 ≤ ds.braking_score ∧ ds.braking_score ≤ 100) ∧
      (0 ≤ ds.efficiency_score ∧ ds.efficiency_score ≤ 100) ∧
      (0 ≤ ds.overall_score ∧ ds.overall_score ≤ 100)) :=
  ⟨C7_driving_score_amended.1 [] [] (by decide),
   C7_driving_score_amended.2 exSpeeds [] (by decide)⟩

/-- Witness for C8 at concrete inputs: the constant series `[7, 7, 7]` and the
zero-variance pair `[5, 5]` with arbitrary parameters. -/
theorem C8_zero_variance_amended_witness :
    ((linear_regression [7, 7, 7]).1 = 0 ∧
      ss_res_of [7, 7, 7] (linear_regression [7, 7, 7]).1 (linear_regression [7, 7, 7]).2 = 0 ∧
      r_squared [7, 7, 7] (linear_regression [7, 7, 7]).1 (linear_regression [7, 7, 7]).2 = 1) ∧
    r_squared [5, 5] 3 4 = 1 := by
  refine ⟨C8_zero_variance_amended.1 [7, 7, 7] 7 (by decide) ?_, ?_⟩
  · intro y hy; fin_cases hy <;> rfl
  · exact C8_zero_variance_amended.2 [5, 5] 3 4 (by decide)
      (by norm_num [ss_tot_of, sumIdx])

/-! ## External simulator feed (`backend/api/external_sim_routes.py`) -/

/-- Payload of the external-feed endpoint (`ExternalTelemetryFeed`); all
fields optional. -/
structure ExternalTelemetryFeed where
  speed : Option ℚ := none
  battery_soc : Option ℚ := none
  battery_voltage : Option ℚ := none
  battery_temperature : Option ℚ := none
  tire_fl : Option ℚ := none
  tire_fr : Option ℚ := none
  tire_rl : Option ℚ := none
  tire_rr : Option ℚ := none
  throttle : Option ℚ := none
  brake : Option ℚ := none
  steering_angle : Option ℚ := none
  gear : Option String := none
  latitude : Option ℚ := none
  longitude : Option ℚ := none
  ev_range : Option ℚ := none
  odometer : Option ℚ := none
  vehicle_variant : Option String := none
deriving DecidableEq

/-- Transcription of `feed_external_telemetry`: merge the provided fields
over the current snapshot (`now` is `datetime.utcnow()`), then push the merged
snapshot through `update_telemetry`.  Returns the updated store and the
merged snapshot. -/
def feed_external_telemetry (data : ExternalTelemetryFeed) (st : DataStore) (now : ℚ) :
    DataStore × VehicleTelemetry :=
  let current := st.telemetry
  let telemetry : VehicleTelemetry :=
    { timestamp := now
      speed := data.speed.getD current.speed
      battery :=
        { soc := data.battery_soc.getD current.battery.soc
          voltage := data.battery_voltage.getD current.battery.voltage
          temperature := data.battery_temperature.getD current.battery.temperature
          health_status := current.battery.health_status }
      tires :=
        { front_left := data.tire_fl.getD current.tires.front_left
          front_right := data.tire_fr.getD current.tires.front_right
          rear_left := data.tire_rl.getD current.tires.rear_left
          rear_right := data.tire_rr.getD current.tires.rear_right }
      drivetrain :=
        { throttle_position := data.throttle.getD current.drivetrain.throttle_position
          brake_position := data.brake.getD current.drivetrain.brake_position
          gear_position := data.gear.getD current.drivetrain.gear_position
          steering_angle := data.steering_angle.getD current.drivetrain.steering_angle }
      ev_status :=
        { ev_range := data.ev_range.getD current.ev_status.ev_range
          charging := current.ev_status.charging
          regen_braking := current.ev_status.regen_braking }
      gps :=
        { latitude := data.latitude.getD current.gps.latitude
          longitude := data.longitude.getD current.gps.longitude }
      odometer := data.odometer.getD current.odometer
      engine_status := "running"
      vehicle_variant := data.vehicle_variant.getD current.vehicle_variant }
  (st.update_telemetry telemetry now, telemetry)

/-- The speed-only payload `{speed: 42}` of the C6 scenario. -/
def speedOnlyFeed : ExternalTelemetryFeed := { speed := some 42 }

/-- Claim C6 (counterexample): injecting `{speed: 42}` over a snapshot whose
engine status is `"motor_running"` (the status every EV/Hybrid simulator
snapshot carries) yields a snapshot whose engine status is forced to
`"running"`, so not every field other than speed keeps its prior value. -/
theorem C6_counterexample_engine_status :
    ((feed_external_telemetry speedOnlyFeed
        { telemetry := { mockTelemetry 0 with engine_status := "motor_running" } } 5).2).speed = 42 ∧
    ({ mockTelemetry 0 with engine_status := "motor_running" } : VehicleTelemetry).engine_status =
      "motor_running" ∧
    ((feed_external_telemetry speedOnlyFeed
        { telemetry := { mockTelemetry 0 with engine_status := "motor_running" } } 5).2).engine_status =
      "running" ∧
    ("running" : String) ≠ "motor_running" := by
  refine ⟨rfl, rfl, rfl, by decide⟩

/-- Claim C6 (amended): injecting `{speed: 42}` yields a new current snapshot
whose speed is 42 and whose every other field equals the prior snapshot's
value, except the timestamp (set to the injection time) and the engine status
(always forced to `"running"`); the merged snapshot becomes the store's
current snapshot. -/
theorem C6_inject_speed_only_frame (st : DataStore) (now : ℚ) :
    ((feed_external_telemetry speedOnlyFeed st now).2).speed = 42 ∧
    ((feed_external_telemetry speedOnlyFeed st now).2).timestamp = now ∧
    ((feed_external_telemetry speedOnlyFeed st now).2).engine_status = "running" ∧
    ((feed_external_telemetry speedOnlyFeed st now).2).battery = st.telemetry.battery ∧
    ((feed_external_telemetry speedOnlyFeed st now).2).tires = st.telemetry.tires ∧
    ((feed_external_telemetry speedOnlyFeed st now).2).drivetrain = st.telemetry.drivetrain ∧
    ((feed_external_telemetry speedOnlyFeed st now).2).ev_status = st.telemetry.ev_status ∧
    ((feed_external_telemetry speedOnlyFeed st now).2).gps = st.telemetry.gps ∧
    ((feed_external_telemetry speedOnlyFeed st now).2).odometer = st.telemetry.odometer ∧
    ((feed_external_telemetry speedOnlyFeed st now).2).vehicle_variant = st.telemetry.vehicle_variant ∧
    ((feed_external_telemetry speedOnlyFeed st now).1).telemetry =
      (feed_external_telemetry speedOnlyFeed st now).2 := by
  refine ⟨rfl, rfl, rfl, ?_, ?_, ?_, ?_, ?_, rfl, rfl, rfl⟩ <;> simp [feed_external_telemetry, speedOnlyFeed]

/-! ## Vehicle simulator (`backend/simulator/vehicle_simulator.py`)

The per-tick generator consumes a stream of `random.random` /
`random.uniform` / `random.choice` draws and the `math` trigonometry
primitives; both are passed explicitly (`TickDraws`, `TrigModel`), so the
embedded generator is a deterministic function of them. -/

/-- Mutable physical state of `VehicleSimulator` (`__init__` defaults). -/
structure SimState where
  speed : ℚ := 0
  battery_soc : ℚ := 95
  battery_voltage : ℚ := 400
  battery_temp : ℚ := 25
  tire_fl : ℚ := 32
  tire_fr : ℚ := 63/2
  tire_rl : ℚ := 159/5
  tire_rr : ℚ := 161/5
  odometer : ℚ := 15000
  speed_direction : ℤ := 1
  fuel_level : ℚ := 100
  throttle : ℚ := 0
  brake : ℚ := 0
  gear : String := "P"
  steering : ℚ := 0
  ev_range : ℚ := 350
  gps_lat : ℚ := 129716/10000
  gps_lon : ℚ := 775946/10000
  gps_heading : ℚ := 0
deriving DecidableEq

/-- One tick's stream of pseudo-random draws, in source order.  Probability
draws (`random.random()`) lie in `[0,1)`; `uniform(a, b)` draws in `[a, b]`;
choices are indices. -/
structure TickDraws where
  dir_flip : ℚ := 1
  speed_mag : ℚ := 1
  hold_speed : ℚ := 105
  throttle_jit : ℚ := 0
  brake_jit : ℚ := 0
  harsh_p : ℚ := 1
  harsh_brake : ℚ := 85
  gear_p : ℚ := 1
  gear_choice : Fin 3 := 0
  steering_delta : ℚ := 0
  soc_drain : ℚ := 0
  rapid_p : ℚ := 1
  rapid_drop : ℚ := 5
  temp_jit : ℚ := 0
  fuel_draw : ℚ := 0
  tire_jit_fl : ℚ := 0
  tire_jit_fr : ℚ := 0
  tire_jit_rl : ℚ := 0
  tire_jit_rr : ℚ := 0
  tire_event_p : ℚ := 1
  tire_choice : Fin 4 := 0
  tire_drop : ℚ := 8
  heading_delta : ℚ := 0
deriving DecidableEq

/-- The `math.cos` / `math.sin` / `math.radians` primitives used by the GPS
dead reckoning, abstracted as rational-valued functions. -/
structure TrigModel where
  cos : ℚ → ℚ
  sin : ℚ → ℚ
  radians : ℚ → ℚ

/-- Transcription of `VehicleSimulator._generate_telemetry`: advances the
physical state and derives the snapshot. -/
def generate_telemetry (variant : String) (tick : ℕ) (s : SimState) (r : TickDraws)
    (trig : TrigModel) (now : ℚ) : SimState × VehicleTelemetry :=
  let dir : ℤ := if r.dir_flip < 5/100 then -s.speed_direction else s.speed_direction
  let speed_delta : ℚ := r.speed_mag * (dir : ℚ)
  let speed0 := max 0 (min 140 (s.speed + speed_delta))
  let speed := if tick % 50 < 15 ∧ 20 < tick then r.hold_speed else speed0
  let throttle0 : ℚ := if 0 < speed_delta then min 100 (|speed_delta| * 15 + r.throttle_jit) else 0
  let brake0 : ℚ := if 0 < speed_delta then 0 else min 100 (|speed_delta| * 12 + r.brake_jit)
  let throttle := if r.harsh_p < 15/1000 then 0 else throttle0
  let brake := if r.harsh_p < 15/1000 then r.harsh_brake else brake0
  let gear0 := if speed < 1 then "P" else "D"
  let gear := if 5 < speed ∧ r.gear_p < 2/100 then
      (if r.gear_choice = 0 then "1" else if r.gear_choice = 1 then "2" else "3")
    else gear0
  let steering := (max (-540) (min 540 (s.steering + r.steering_delta))) * (95/100)
  let bat : ℚ × ℚ × ℚ × ℚ × Bool × ℚ :=
    if variant = "ICE" then
      let soc := max 90 (100 - r.soc_drain * (tick : ℚ))
      (soc, 12 + (soc/100) * 2, 25 + r.temp_jit, 0, false, max 0 (s.fuel_level - r.fuel_draw))
    else if variant = "Hybrid" then
      let soc1 := s.battery_soc - r.soc_drain
      let soc2 := if r.rapid_p < 1/100 then soc1 - r.rapid_drop else soc1
      let soc := max 15 (min 100 soc2)
      (soc, 350 + (soc/100) * 50, 25 + r.temp_jit, max 0 (soc * (4 - speed/120)),
        decide (30 < brake), max 0 (s.fuel_level - r.fuel_draw))
    else
      let soc1 := s.battery_soc - r.soc_drain
      let soc2 := if r.rapid_p < 2/100 then soc1 - r.rapid_drop else soc1
      let soc := max 5 (min 100 soc2)
      (soc, 350 + (soc/100) * 50, 25 + r.temp_jit, max 0 (soc * (55/10 - speed/100)),
        decide (30 < brake), s.fuel_level)
  let soc := bat.1
  let voltage := bat.2.1
  let temp := bat.2.2.1
  let ev_range := bat.2.2.2.1
  let regen := bat.2.2.2.2.1
  let fuel := bat.2.2.2.2.2
  let health := if soc < 20 then "Low" else if soc < 50 then "Fair" else "Good"
  let tfl0 := s.tire_fl + r.tire_jit_fl
  let tfr0 := s.tire_fr + r.tire_jit_fr
  let trl0 := s.tire_rl + r.tire_jit_rl
  let trr0 := s.tire_rr + r.tire_jit_rr
  let tireEvent := r.tire_event_p < 1/100
  let tfl1 := if tireEvent ∧ r.tire_choice = 0 then tfl0 - r.tire_drop else tfl0
  let tfr1 := if tireEvent ∧ r.tire_choice = 1 then tfr0 - r.tire_drop else tfr0
  let trl1 := if tireEvent ∧ r.tire_choice = 2 then trl0 - r.tire_drop else trl0
  let trr1 := if tireEvent ∧ r.tire_choice = 3 then trr0 - r.tire_drop else trr0
  let tfl := max 15 (min 40 tfl1)
  let tfr := max 15 (min 40 tfr1)
  let trl := max 15 (min 40 trl1)
  let trr := max 15 (min 40 trr1)
  let heading := s.gps_heading + r.heading_delta
  let speed_m_s := speed / (36/10)
  let lat := s.gps_lat + (speed_m_s * trig.cos heading) / 111320
  let lon := s.gps_lon + (speed_m_s * trig.sin heading) / (111320 * trig.cos (trig.radians lat))
  let odo := s.odometer + speed / 3600
  ({ speed := speed, battery_soc := soc, battery_voltage := voltage, battery_temp := temp,
     tire_fl := tfl, tire_fr := tfr, tire_rl := trl, tire_rr := trr, odometer := odo,
     speed_direction := dir, fuel_level := fuel, throttle := throttle, brake := brake,
     gear := gear, steering := steering, ev_range := ev_range, gps_lat := lat,
     gps_lon := lon, gps_heading := heading },
   { timestamp := now
     speed := pyround 1 speed
     battery := { soc := pyround 1 soc, voltage := pyround 1 voltage,
                  temperature := pyround 1 temp, health_status := health }
     tires := { front_left := pyround 1 tfl, front_right := pyround 1 tfr,
                rear_left := pyround 1 trl, rear_right := pyround 1 trr }
     drivetrain := { throttle_position := pyround 1 throttle, brake_position := pyround 1 brake,
                     gear_position := gear, steering_angle := pyround 1 steering }
     ev_status := { ev_range := pyround 1 ev_range, charging := false, regen_braking := regen }
     gps := { latitude := pyround 6 lat, longitude := pyround 6 lon }
     odometer := pyround 1 odo
     engine_status := if variant = "ICE" then "running" else "motor_running"
     vehicle_variant := variant })

/-- The simulator object: run flag, tick counter, variant, physical state,
and the shared store. -/
structure VehicleSimulator where
  running : Bool := false
  tick_count : ℕ := 0
  variant : String := "EV"
  sim : SimState := {}
  store : DataStore

/-- Transcription of `VehicleSimulator.start`: a no-op when already running;
otherwise upper-cases the requested variant (empty string defaults to
`"EV"`), stores it, resets ICE-specific state, and marks the simulation
running. -/
def VehicleSimulator.start (vs : VehicleSimulator) (variant : String) (now : ℚ) :
    VehicleSimulator :=
  if vs.running then vs
  else
    let v := if variant = "" then "EV" else pyUpper variant
    { vs with
      running := true
      tick_count := 0
      variant := v
      sim := if v = "ICE" then { vs.sim with battery_soc := 100, fuel_level := 100 } else vs.sim
      store := { vs.store with
        vehicle_variant := v
        simulation := { running := true, tick_count := 0, start_time := some now,
                        message := "Simulator started (variant: " ++ v ++ ")" } } }

/-- Claim C9 (counterexample): `startSimulation("Sportscar")` — a variant
outside `{EV, Hybrid, ICE}` — succeeds, but the stored vehicle variant
becomes the upper-cased input `"SPORTSCAR"`, not `"EV"`. -/
theorem C9_counterexample_stored_variant :
    ¬ ("Sportscar" = "EV" ∨ "Sportscar" = "Hybrid" ∨ "Sportscar" = "ICE") ∧
    (VehicleSimulator.start { store := exStore } "Sportscar" 0).running = true ∧
    (VehicleSimulator.start { store := exStore } "Sportscar" 0).store.vehicle_variant =
      "SPORTSCAR" ∧
    ("SPORTSCAR" : String) ≠ "EV" := by
  refine ⟨by decide, rfl, ?_, by decide⟩
  show (if ("Sportscar" : String) = "" then "EV" else pyUpper "Sportscar") = "SPORTSCAR"
  decide

/-- Claim C9 (amended): starting with any variant string succeeds (the
simulation enters the running state) and stores the upper-cased input
verbatim (empty input defaults to `"EV"`); the per-tick generation physics
for any stored variant other than `"ICE"` (and the unreachable exact string
`"Hybrid"`, which upper-casing never produces) are exactly those of the EV
variant — every state component and snapshot field coincides with the EV run
except the recorded variant string. -/
theorem C9_unknown_variant_defaults_to_ev_physics :
    (∀ (vs : VehicleSimulator) (variant : String) (now : ℚ), vs.running = false →
      (vs.start variant now).running = true ∧
      (vs.start variant now).store.simulation.running = true ∧
      (vs.start variant now).variant = (if variant = "" then "EV" else pyUpper variant) ∧
      (vs.start variant now).store.vehicle_variant =
        (if variant = "" then "EV" else pyUpper variant)) ∧
    (∀ (w : String) (tick : ℕ) (s : SimState) (r : TickDraws) (trig : TrigModel) (now : ℚ),
      w ≠ "ICE" → w ≠ "Hybrid" →
      (generate_telemetry w tick s r trig now).1 =
        (generate_telemetry "EV" tick s r trig now).1 ∧
      (generate_telemetry w tick s r trig now).2 =
        { (generate_telemetry "EV" tick s r trig now).2 with vehicle_variant := w }) := by
  constructor
  · intro vs variant now hrun
    unfold VehicleSimulator.start
    rw [if_neg (by rw [hrun]; exact Bool.false_ne_true)]
    exact ⟨rfl, rfl, rfl, rfl⟩
  · intro w tick s r trig now hice hhyb
    unfold generate_telemetry
    simp only [if_neg hice, if_neg hhyb,
      if_neg (by decide : ¬ ("EV" : String) = "ICE"),
      if_neg (by decide : ¬ ("EV" : String) = "Hybrid")]
    exact ⟨trivial, trivial⟩

/-- Witness for C9: starting a stopped simulator with variant `"Sportscar"`
succeeds and stores `"SPORTSCAR"`, and one generated tick with stored variant
`"SPORTSCAR"` matches the EV tick up to the recorded variant string. -/
theorem C9_unknown_variant_defaults_to_ev_physics_witness :
    (({ store := exStore } : VehicleSimulator).running = false) ∧
    ((VehicleSimulator.start { store := exStore } "Sportscar" 0).running = true ∧
      (VehicleSimulator.start { store := exStore } "Sportscar" 0).store.simulation.running = true ∧
      (VehicleSimulator.start { store := exStore } "Sportscar" 0).variant =
        (if ("Sportscar" : String) = "" then "EV" else pyUpper "Sportscar") ∧
      (VehicleSimulator.start { store := exStore } "Sportscar" 0).store.vehicle_variant =
        (if ("Sportscar" : String) = "" then "EV" else pyUpper "Sportscar")) ∧
    ((generate_telemetry "SPORTSCAR" 0 {} {} ⟨fun _ => 1, fun _ => 0, fun q => q⟩ 0).1 =
        (generate_telemetry "EV" 0 {} {} ⟨fun _ => 1, fun _ => 0, fun q => q⟩ 0).1 ∧
      (generate_telemetry "SPORTSCAR" 0 {} {} ⟨fun _ => 1, fun _ => 0, fun q => q⟩ 0).2 =
        { (generate_telemetry "EV" 0 {} {} ⟨fun _ => 1, fun _ => 0, fun q => q⟩ 0).2 with
          vehicle_variant := "SPORTSCAR" }) :=
  ⟨rfl,
   C9_unknown_variant_defaults_to_ev_physics.1 { store := exStore } "Sportscar" 0 rfl,
   C9_unknown_variant_defaults_to_ev_physics.2 "SPORTSCAR" 0 {} {}
     ⟨fun _ => 1, fun _ => 0, fun q => q⟩ 0 (by decide) (by decide)⟩

/-! ## Alert deduplication (`DataStore.add_alert`) -/

/-- Corrected dedup invariant of the alert buffer: two stored alerts with the
same `(type, signal)` and timestamps within 10 seconds can only occur more
than 20 positions apart (the scan covers only `alerts[-20:]`). -/
def AlertsDedupInvariant (l : List AlertModel) : Prop :=
  ∀ (i j : ℕ) (hi : i < l.length) (hj : j < l.length), i < j →
    l[i].alert_type = l[j].alert_type → l[i].signal = l[j].signal →
    |l[i].timestamp - l[j].timestamp| < 10 → 20 < j - i

/-- `add_alert` with a duplicate among the last 20 leaves the store
unchanged. -/
theorem add_alert_of_dup {st : DataStore} {a : AlertModel}
    (h : isDupAlert st.alerts a) : st.add_alert a = st := by
  unfold DataStore.add_alert add_alert_buf
  rw [if_pos h]

/-- `add_alert` without a duplicate among the last 20 appends and trims to
the 100 most recent alerts. -/
theorem add_alert_of_not_dup {st : DataStore} {a : AlertModel}
    (h : ¬ isDupAlert st.alerts a) :
    (st.add_alert a).alerts = (st.alerts ++ [a]).rtake 100 := by
  unfold DataStore.add_alert add_alert_buf
  rw [if_neg h]

/-- One `add_alert` step preserves the dedup invariant. -/
theorem add_alert_invariant_step {l : List AlertModel} {a : AlertModel}
    (hinv : AlertsDedupInvariant l) (hnd : ¬ isDupAlert l a) :
    AlertsDedupInvariant ((l ++ [a]).rtake 100) := by
  intro i j hi hj hij hty hsig hts
  set k := (l ++ [a]).length - 100 with hk
  have hkk : k = l.length + 1 - 100 := by
    rw [hk, List.length_append, List.length_singleton]
  have hdrop : (l ++ [a]).rtake 100 = (l ++ [a]).drop k := rfl
  simp only [hdrop] at hi hj hty hsig hts
  simp only [List.getElem_drop] at hty hsig hts
  rw [List.length_drop, List.length_append, List.length_singleton] at hi hj
  rcases Nat.lt_or_ge (k + j) l.length with hjin | hjout
  · -- both indices land inside the old buffer
    have hiin : k + i < l.length := by omega
    rw [List.getElem_append_left hiin, List.getElem_append_left hjin] at hty hsig hts
    have := hinv (k + i) (k + j) hiin hjin (by omega) hty hsig hts
    omega
  · -- the larger index is the newly appended alert
    have hjeq : k + j = l.length := by omega
    have hiin : k + i < l.length := by omega
    rw [List.getElem_append_left hiin,
      List.getElem_append_right (by omega : l.length ≤ k + j)] at hty hsig hts
    have h0 : k + j - l.length = 0 := by omega
    simp only [h0, List.getElem_cons_zero] at hty hsig hts
    by_contra hle
    have hclose : l.length - 20 ≤ k + i := by omega
    have hmem : l[k + i] ∈ l.rtake 20 := by
      have hidx : (k + i) - (l.length - 20) < (l.rtake 20).length := by
        rw [length_rtake]; omega
      have hval : (l.rtake 20).get ⟨(k + i) - (l.length - 20), hidx⟩ = l[k + i] := by
        show (l.drop (l.length - 20)).get
          ⟨(k + i) - (l.length - 20), hidx⟩ = l[k + i]
        rw [List.get_eq_getElem]
        simp only [List.getElem_drop]
        congr 1
        omega
      rw [← hval]
      apply List.get_mem
    exact hnd ⟨l[k + i], hmem, hty, hsig, hts⟩

/-- Fixture alert used in the dedup scenarios. -/
def mkAlert (ty sig : String) (ts : ℚ) : AlertModel :=
  { alert_type := ty, severity := .warning, message := "", signal := sig,
    value := 0, threshold := "", timestamp := ts }

/-- A duplicate `(high_speed_stress, speed)` pair two seconds apart with 20
distinct alerts stored in between. -/
def exDupSeq : List AlertModel :=
  [mkAlert "high_speed_stress" "speed" 0,
   mkAlert "f1" "s1" 1, mkAlert "f2" "s2" 1, mkAlert "f3" "s3" 1, mkAlert "f4" "s4" 1,
   mkAlert "f5" "s5" 1, mkAlert "f6" "s6" 1, mkAlert "f7" "s7" 1, mkAlert "f8" "s8" 1,
   mkAlert "f9" "s9" 1, mkAlert "f10" "s10" 1, mkAlert "f11" "s11" 1, mkAlert "f12" "s12" 1,
   mkAlert "f13" "s13" 1, mkAlert "f14" "s14" 1, mkAlert "f15" "s15" 1, mkAlert "f16" "s16" 1,
   mkAlert "f17" "s17" 1, mkAlert "f18" "s18" 1, mkAlert "f19" "s19" 1, mkAlert "f20" "s20" 1,
   mkAlert "high_speed_stress" "speed" 2]

/-- Folding `add_alert` over a store only ever touches the alert buffer, by
its buffer-level effect. -/
theorem foldl_add_alert_alerts (seq : List AlertModel) :
    ∀ st : DataStore,
      (List.foldl DataStore.add_alert st seq).alerts =
        List.foldl add_alert_buf st.alerts seq := by
  induction seq with
  | nil => intro st; rfl
  | cons a rest ih =>
      intro st
      rw [List.foldl_cons, List.foldl_cons, ih]
      rfl

set_option maxHeartbeats 1000000 in
/-- Claim C1 (counterexample): after adding a `(high_speed_stress, speed)`
alert at `t = 0`, twenty distinct alerts at `t = 1`, and a second
`(high_speed_stress, speed)` alert at `t = 2`, the buffer stores both
same-key alerts although their timestamps are 2 < 10 seconds apart — the
second was not dropped, because the dedup scan only covers the 20 most
recently stored alerts. -/
theorem C1_counterexample_dup_within_10s :
    (List.foldl DataStore.add_alert exStore exDupSeq).alerts.length = 22 ∧
    ((List.foldl DataStore.add_alert exStore exDupSeq).alerts.getD 0 (mkAlert "" "" 0)) =
      mkAlert "high_speed_stress" "speed" 0 ∧
    ((List.foldl DataStore.add_alert exStore exDupSeq).alerts.getD 21 (mkAlert "" "" 0)) =
      mkAlert "high_speed_stress" "speed" 2 ∧
    |(0 : ℚ) - 2| < 10 := by
  have hbridge : (List.foldl DataStore.add_alert exStore exDupSeq).alerts =
      List.foldl add_alert_buf [] exDupSeq := foldl_add_alert_alerts exDupSeq exStore
  have hfold : List.foldl add_alert_buf [] exDupSeq = exDupSeq := by
    norm_num +decide [exDupSeq, add_alert_buf, isDupAlert, List.rtake, mkAlert]
  rw [hbridge, hfold]
  refine ⟨by decide, ?_, ?_, by norm_num⟩ <;>
    norm_num [exDupSeq, mkAlert]

/-- Claim C1 (amended): a second alert of the same `(type, signal)` arriving
within 10 seconds of one of the 20 most recently stored alerts is silently
dropped and the buffer is unchanged; otherwise the alert is appended (and the
buffer trimmed to its 100 most recent entries).  Consequently, for every
sequence of `addAlert` calls starting from an empty buffer, two stored alerts
of the same `(type, signal)` with timestamps within 10 seconds of each other
can occur, but only more than 20 positions apart. -/
theorem C1_alert_dedup_amended :
    (∀ (st : DataStore) (a : AlertModel), isDupAlert st.alerts a → st.add_alert a = st) ∧
    (∀ (st : DataStore) (a : AlertModel), ¬ isDupAlert st.alerts a →
      (st.add_alert a).alerts = (st.alerts ++ [a]).rtake 100) ∧
    (∀ (seq : List AlertModel) (st : DataStore), st.alerts = [] →
      AlertsDedupInvariant (List.foldl DataStore.add_alert st seq).alerts) := by
  refine ⟨fun st a h => add_alert_of_dup h, fun st a h => add_alert_of_not_dup h, ?_⟩
  have main : ∀ (seq l : List AlertModel),
      AlertsDedupInvariant l → AlertsDedupInvariant (List.foldl add_alert_buf l seq) := by
    intro seq
    induction seq with
    | nil => intro l h; exact h
    | cons a rest ih =>
        intro l h
        rw [List.foldl_cons]
        apply ih
        unfold add_alert_buf
        split_ifs with hd
        · exact h
        · exact add_alert_invariant_step h hd
  intro seq st hempty
  rw [foldl_add_alert_alerts, hempty]
  apply main
  intro i j hi
  exact absurd hi (Nat.not_lt_zero i)

/-- Witness for C1 at concrete buffers: a within-10-seconds duplicate against
a one-alert buffer is dropped; an alert against the empty buffer is appended;
the 22-alert scenario satisfies the corrected invariant. -/
theorem C1_alert_dedup_amended_witness :
    (DataStore.add_alert { telemetry := mockTelemetry 0, alerts := [mkAlert "t" "s" 0] }
        (mkAlert "t" "s" 2) =
      { telemetry := mockTelemetry 0, alerts := [mkAlert "t" "s" 0] }) ∧
    ((DataStore.add_alert exStore (mkAlert "t" "s" 0)).alerts =
      (exStore.alerts ++ [mkAlert "t" "s" 0]).rtake 100) ∧
    AlertsDedupInvariant (List.foldl DataStore.add_alert exStore exDupSeq).alerts := by
  refine ⟨C1_alert_dedup_amended.1 _ _ ?_, C1_alert_dedup_amended.2.1 _ _ ?_,
    C1_alert_dedup_amended.2.2 exDupSeq exStore rfl⟩
  · exact ⟨mkAlert "t" "s" 0, by simp [List.rtake], rfl, rfl, by norm_num [mkAlert]⟩
  · simp [isDupAlert, List.rtake, exStore]
